import Mathlib

/-!
Shallow embedding of the IoT-Mastra-Template core: the MQTT topic matcher,
message filter evaluator, subscription registry tool, the scheduled-task
coordinator's overlap guard, and the voice-response rate limiter.

Each definition is translated from the TypeScript source
(`src/mastra/tools/mqtt-subscribe.ts`, `src/mastra/tools/iot-voice-response.ts`,
`src/mastra/workflows/scheduled-monitoring.ts`).
-/

/-! ## Topic matcher (`topicMatches`, mqtt-subscribe.ts lines 241-252)

The source:
```
function topicMatches(actualTopic, subscriptionTopic) {
  const actualParts = actualTopic.split('/');
  const subParts = subscriptionTopic.split('/');
  for (let i = 0; i < subParts.length; i++) {
    if (subParts[i] === '#') return true;
    if (subParts[i] === '+') continue;
    if (i >= actualParts.length || subParts[i] !== actualParts[i]) return false;
  }
  return actualParts.length === subParts.length;
}
```
`goMatch` is the literal index-based loop; `topicMatches` applies it to the
`/`-split segment lists starting at index 0. -/

/-- The `for` loop over the pattern segments.  The first explicit list argument
is the remainder `subParts[i:]` of the pattern still to be scanned, and `i` is
the loop index; when the loop falls off the end, `i` equals the original
`subParts.length`, so the source's final check
`actualParts.length === subParts.length` is `actualParts.length = i`. -/
def goMatch (actualParts : List String) : List String → Nat → Bool
  | [], i => actualParts.length = i
  | p :: ps, i =>
    if p = "#" then true
    else if p = "+" then goMatch actualParts ps (i + 1)
    else if hi : i < actualParts.length then
      if p = actualParts.get ⟨i, hi⟩ then goMatch actualParts ps (i + 1) else false
    else false

/-- `split('/')` on the character list: every `/` starts a new segment, empty
segments are kept, and the empty string yields the single segment `""`,
exactly as JavaScript's `String.prototype.split('/')`. -/
def splitCharsOnSlash : List Char → List (List Char)
  | [] => [[]]
  | c :: cs =>
    let rest := splitCharsOnSlash cs
    if c = '/' then [] :: rest
    else
      match rest with
      | r :: rs => (c :: r) :: rs
      | [] => [[c]]

/-- JavaScript's `topic.split('/')`, made kernel-computable. -/
def splitSlash (s : String) : List String :=
  (splitCharsOnSlash s.data).map fun l => ⟨l⟩

def topicMatches (actualTopic subscriptionTopic : String) : Bool :=
  goMatch (splitSlash actualTopic) (splitSlash subscriptionTopic) 0

/-! ## Payload decoding and filter evaluation (`handleMessage`, mqtt-subscribe.ts lines 199-239)

The handler parses the raw buffer with `JSON.parse`, falling back to the raw
string when parsing throws, then (only when the subscription has a `filter`
object *and* `typeof parsedMessage === 'object'`) checks every filter entry
against `parsedMessage[key] === value`. -/

/-- A decoded JavaScript value.  JSON numbers are modelled as integers (the
filter claims only need equality of scalars). -/
inductive JValue
  | str (s : String)
  | num (n : Int)
  | jbool (b : Bool)
  | jnull
  | obj (fields : List (String × JValue))
  | arr (elems : List JValue)

/-- Scalar filter values (`Record<string, any>` entries, restricted to the
scalar values the design note allows; object-valued filter entries would
compare by reference in JS and never match a decoded payload). -/
inductive Scalar
  | str (s : String)
  | num (n : Int)
  | sbool (b : Bool)
  | snull
deriving DecidableEq

/-- The raw MQTT payload: either bytes that decode as JSON for the value `v`,
or bytes whose string form is not parseable JSON. -/
inductive RawPayload
  | jsonOf (v : JValue)
  | nonJson (s : String)

/-- Source:
```
let parsedMessage;
try { parsedMessage = JSON.parse(message.toString()); }
catch { parsedMessage = message.toString(); }
``` -/
def parsePayload : RawPayload → JValue
  | .jsonOf v => v
  | .nonJson s => .str s

/-- JavaScript's `typeof v === 'object'`: true for objects, arrays and `null`;
false for strings, numbers and booleans. -/
def isObjectType : JValue → Bool
  | .obj _ => true
  | .arr _ => true
  | .jnull => true
  | _ => false

def lookupField : List (String × JValue) → String → Option JValue
  | [], _ => none
  | (k, v) :: rest, key => if k = key then some v else lookupField rest key

/-- Result of the property access `parsedMessage[key]`: `none` is JavaScript
`undefined`; accessing a property of `null` throws a `TypeError`. -/
def jsGet : JValue → String → Except Unit (Option JValue)
  | .obj fields, key => .ok (lookupField fields key)
  | .jnull, _ => .error ()
  | _, _ => .ok none

/-- Strict equality `parsedMessage[key] === value` against a scalar filter
value; `undefined` (`none`) is never strictly equal to a scalar. -/
def strictEq : Option JValue → Scalar → Bool
  | some (.str a), .str b => a = b
  | some (.num a), .num b => a = b
  | some (.jbool a), .sbool b => a = b
  | some .jnull, .snull => true
  | _, _ => false

/-- `Object.entries(filter).every(([key, value]) => parsedMessage[key] === value)`,
short-circuiting on the first non-matching entry; a thrown property access
propagates as `.error`. -/
def evalFilter (parsed : JValue) : List (String × Scalar) → Except Unit Bool
  | [] => .ok true
  | (key, value) :: rest =>
    match jsGet parsed key with
    | .error _ => .error ()
    | .ok r => if strictEq r value then evalFilter parsed rest else .ok false

structure Subscription where
  topic : String
  qos : Nat
  filter : Option (List (String × Scalar))
  paused : Bool
deriving DecidableEq

/-- Outcome of `handleMessage`'s per-subscription body. -/
inductive DeliveryOutcome
  | delivered (v : JValue)
  | pausedDrop
  | filteredOut
  | processError

/-- One iteration of `matchingSubscriptions.forEach`:
```
if (subscription.paused) return;
try {
  ... parse ...
  if (subscription.filter && typeof parsedMessage === 'object') {
    const filterMatches = Object.entries(subscription.filter).every(...);
    if (!filterMatches) { ...log...; return; }
  }
  console.log(`[MQTT] Received on ...`, parsedMessage);
} catch (error) { ...log error... }
```
Note that when the parsed payload is not object-typed the filter block is
skipped entirely and the message reaches the `Received` log. -/
def processOne (subscription : Subscription) (message : RawPayload) : DeliveryOutcome :=
  if subscription.paused then .pausedDrop
  else
    let parsedMessage := parsePayload message
    match subscription.filter with
    | some f =>
      if isObjectType parsedMessage then
        match evalFilter parsedMessage f with
        | .error _ => .processError
        | .ok true => .delivered parsedMessage
        | .ok false => .filteredOut
      else .delivered parsedMessage
    | none => .delivered parsedMessage

/-- `handleMessage(topic, message)` over a snapshot of the `subscriptions`
map: keep the entries whose pattern matches the topic, then run the
per-subscription body on each. -/
def handleMessage (topic : String) (message : RawPayload)
    (subscriptions : List (String × Subscription)) : List (String × DeliveryOutcome) :=
  (subscriptions.filter fun e => topicMatches topic e.1).map
    fun e => (e.1, processOne e.2 message)

/-! ## Subscription registry tool (`mqttSubscribeTool.execute`, mqtt-subscribe.ts lines 46-195)

The tool's status strings are modelled as an inductive; the `subscriptions`
map as an insertion-ordered association list (`Map.set` updates an existing
key in place, `Map.delete` of an absent key is a no-op). -/

inductive Status
  | subscribedCount (n : Nat)
  | unsubscribed (topic : String)
  | unsubscribeFailed
  | notFound
  | pausedTopic (topic : String)
  | resumedTopic (topic : String)
  | topicRequired
  | listCount (n : Nat)
deriving DecidableEq

structure ToolResult where
  success : Bool
  status : Status
deriving DecidableEq

abbrev Registry := List (String × Subscription)

def lookupSub : Registry → String → Option Subscription
  | [], _ => none
  | (k, s) :: rest, t => if k = t then some s else lookupSub rest t

/-- `subscriptions.set(t, s)`: overwrite in place when the key exists,
otherwise append. -/
def setSub : Registry → String → Subscription → Registry
  | [], t, s => [(t, s)]
  | (k, s₀) :: rest, t, s => if k = t then (t, s) :: rest else (k, s₀) :: setSub rest t s

/-- `subscriptions.delete(t)`: remove the entry when present, no-op otherwise. -/
def eraseSub : Registry → String → Registry
  | [], _ => []
  | (k, s₀) :: rest, t => if k = t then rest else (k, s₀) :: eraseSub rest t

/-- Accumulator of the per-topic `client.subscribe` callbacks:
`subscribed`/`failed` arrays plus the mutated `subscriptions` map. -/
structure SubscribeAcc where
  subscribed : List String
  failed : List String
  reg : Registry

/-- The per-topic callbacks of the subscribe case, run in topic order.
`brokerOk t` models the transport acknowledging topic `t` (callback without
`err`).  `remaining` starts at `topics.length` and is decremented once per
callback; the promise is resolved (producing `some` result) only when a
callback brings it to `0` — if no callback ever runs the result stays `none`
and the promise is pending forever. -/
def runSubscribeCallbacks (brokerOk : String → Bool) (qos : Nat)
    (filter : Option (List (String × Scalar))) :
    List String → Nat → SubscribeAcc → Option ToolResult × Registry
  | [], _, acc => (none, acc.reg)
  | topicStr :: ts, remaining, acc =>
    let acc' :=
      if brokerOk topicStr then
        { subscribed := acc.subscribed ++ [topicStr]
          failed := acc.failed
          reg := setSub acc.reg topicStr ⟨topicStr, qos, filter, false⟩ }
      else { acc with failed := acc.failed ++ [topicStr] }
    if remaining - 1 = 0 then
      (some { success := decide (0 < acc'.subscribed.length)
              status := .subscribedCount acc'.subscribed.length },
        acc'.reg)
    else runSubscribeCallbacks brokerOk qos filter ts (remaining - 1) acc'

/-- The `subscribe` case (lines 55-100): no validation of the patterns is
performed before they are handed to the transport and stored.  The first
component is the resolved promise value (`none` = the promise never
resolves); the second is the `subscriptions` map afterwards. -/
def subscribeCase (brokerOk : String → Bool) (topics : List String) (qos : Nat)
    (filter : Option (List (String × Scalar))) (reg : Registry) :
    Option ToolResult × Registry :=
  runSubscribeCallbacks brokerOk qos filter topics topics.length ⟨[], [], reg⟩

/-- The `unsubscribe` case (lines 102-128): `client.unsubscribe` is called
first; on acknowledgment the map entry is deleted (a no-op when absent) and
the call reports success — the registry is never consulted. -/
def unsubscribeCase (brokerErr : Bool) (topic : String) (reg : Registry) :
    ToolResult × Registry :=
  if brokerErr then ({ success := false, status := .unsubscribeFailed }, reg)
  else ({ success := true, status := .unsubscribed topic }, eraseSub reg topic)

/-- The `pause` case (lines 146-166). -/
def pauseCase (topic : String) (reg : Registry) : ToolResult × Registry :=
  match lookupSub reg topic with
  | none => ({ success := false, status := .notFound }, reg)
  | some pauseSub =>
    ({ success := true, status := .pausedTopic topic },
      setSub reg topic { pauseSub with paused := true })

/-- The `resume` case (lines 168-188). -/
def resumeCase (topic : String) (reg : Registry) : ToolResult × Registry :=
  match lookupSub reg topic with
  | none => ({ success := false, status := .notFound }, reg)
  | some resumeSub =>
    ({ success := true, status := .resumedTopic topic },
      setSub reg topic { resumeSub with paused := false })

/-! ## Scheduled-task coordinator (`executeWorkflowNonBlocking`, scheduled-monitoring.ts)

The tick handler:
```
console.log(`🚀 ... Starting ${taskName} ...`);
if (runningTasks.has(taskName)) {
  console.log(`⏳ ... ${taskName} is already running, skipping...`);
  return;
}
runningTasks.add(taskName);
setTimeout(async () => {
  try { ... await Promise.race([workflowPromise, timeoutPromise]) ... }
  catch (error) { ... timeout / error log ... }
  finally { runningTasks.delete(taskName); ... cleanup log ... }
}, 0);
```
`tickFn` is the synchronous tick handler; `dispatchedFinish` is the
completion of the dispatched `setTimeout` body on each of its exit paths.
The ghost fields `inflight` (dispatched bodies whose `finally` has not yet
run) and `startedCount` (total dispatches) record what the bookkeeping
tracks; `running` is the `runningTasks` set itself. -/

inductive LogEvent
  | starting (task : String)
  | skipping (task : String)
  | completed (task : String)
  | timedOut (task : String)
  | errored (task : String)
  | noWorkflow (task : String)
  | cleanup (task : String)

structure CoordState where
  running : String → Bool
  inflight : String → Nat
  startedCount : String → Nat
  log : List LogEvent

def initCoord : CoordState :=
  { running := fun _ => false, inflight := fun _ => 0
    startedCount := fun _ => 0, log := [] }

/-- The synchronous part of `executeWorkflowNonBlocking`: guard check, then
either skip or mark running and dispatch the body. -/
def tickFn (s : CoordState) (taskName : String) : CoordState :=
  if s.running taskName then
    { s with log := s.log ++ [.starting taskName, .skipping taskName] }
  else
    { running := fun x => if x = taskName then true else s.running x
      inflight := fun x => if x = taskName then s.inflight x + 1 else s.inflight x
      startedCount := fun x => if x = taskName then s.startedCount x + 1 else s.startedCount x
      log := s.log ++ [.starting taskName] }

/-- Exit paths of the dispatched body: the race resolving (success), the
workflow lookup failing, the race rejecting with the 2-minute timeout, or any
other thrown error. -/
inductive BodyOutcome
  | success
  | workflowNotFound
  | timeout
  | error

/-- Completion of the dispatched body: the try/catch logs the per-path
outcome, and the `finally` block unconditionally removes the task from
`runningTasks` and logs cleanup. -/
def dispatchedFinish (s : CoordState) (taskName : String) (o : BodyOutcome) : CoordState :=
  let outcomeLog :=
    match o with
    | .success => LogEvent.completed taskName
    | .workflowNotFound => LogEvent.noWorkflow taskName
    | .timeout => LogEvent.timedOut taskName
    | .error => LogEvent.errored taskName
  { running := fun x => if x = taskName then false else s.running x
    inflight := fun x => if x = taskName then s.inflight x - 1 else s.inflight x
    startedCount := s.startedCount
    log := s.log ++ [outcomeLog, .cleanup taskName] }

/-- Interleaving semantics of the coordinator: at any moment either some tick
handler runs to completion (ticks are synchronous on the single JS event
loop), or one previously dispatched body finishes with some outcome. -/
inductive CoordStep : CoordState → CoordState → Prop
  | tick (s : CoordState) (j : String) : CoordStep s (tickFn s j)
  | finish (s : CoordState) (j : String) (o : BodyOutcome) (h : 0 < s.inflight j) :
      CoordStep s (dispatchedFinish s j o)

def CoordReachable (s : CoordState) : Prop :=
  Relation.ReflTransGen CoordStep initCoord s

/-! ## Voice-response rate limiter (`iot-voice-response.ts`)

`voiceHistory` is the per-device emission record (`Map<string,
VoiceResponse[]>`), `generationLocks` the per-device concurrency lock.
Timestamps are epoch milliseconds (integers); the source computes
`minutesSinceLastResponse = msSince / (1000 * 60)` as a real number and
compares it with `< 15` and `< 30`, which is exactly `msSince < 15 * 60000`
and `msSince < 30 * 60000`. -/

structure VoiceResponse where
  device_id : String
  message : String
  severity : String
  personality_type : String
  timestamp : Int
deriving DecidableEq

def lookupHistory : List (String × List VoiceResponse) → String → Option (List VoiceResponse)
  | [], _ => none
  | (k, h) :: rest, d => if k = d then some h else lookupHistory rest d

/-- `shouldRespond(deviceId, severity)` (lines 340-359), with the global
`voiceHistory` map and `Date.now()` made explicit parameters. -/
def shouldRespond (voiceHistory : List (String × List VoiceResponse)) (now : Int)
    (deviceId severity : String) : Bool :=
  match lookupHistory voiceHistory deviceId with
  | none => true
  | some history =>
    if history.length = 0 then true
    else
      match history.getLast? with
      | none => true
      | some lastResponse =>
        let msSinceLastResponse := now - lastResponse.timestamp
        if severity = "emergency" || severity = "critical" then true
        else if severity = "warning" && msSinceLastResponse < 15 * 60000 then false
        else if severity = "normal" && msSinceLastResponse < 30 * 60000 then false
        else true

/-- Sensor readings handed to `analyzeConditions`; numeric values are
modelled as integers. -/
structure Conditions where
  temperature : Option Int := none
  humidity : Option Int := none
  pressure : Option Int := none
  battery : Option Int := none
  signal_strength : Option Int := none

structure Analysis where
  severity : String
  issues : List String
deriving DecidableEq

/-- The sequential `maxSeverity` mutation of `analyzeConditions`
(lines 278-338): each block only raises the severity from the states the
source checks for. -/
def analyzeConditions (c : Conditions) : Analysis :=
  let step1 : String × List String :=
    match c.temperature with
    | none => ("normal", [])
    | some t =>
      if t > 40 then ("emergency", ["Temperature critically high"])
      else if t > 35 then ("critical", ["Temperature very high"])
      else if t > 30 then ("warning", ["Temperature elevated"])
      else if t < 5 then ("warning", ["Temperature too low"])
      else ("normal", [])
  let step2 : String × List String :=
    match c.humidity with
    | none => step1
    | some h =>
      if h > 90 then
        (if step1.1 = "normal" || step1.1 = "warning" then "critical" else step1.1,
          step1.2 ++ ["Humidity extremely high"])
      else if h < 20 then
        (if step1.1 = "normal" then "warning" else step1.1,
          step1.2 ++ ["Humidity very low"])
      else step1
  let step3 : String × List String :=
    match c.battery with
    | none => step2
    | some b =>
      if b < 10 then
        (if step2.1 = "normal" || step2.1 = "warning" then "critical" else step2.1,
          step2.2 ++ ["Battery critically low"])
      else if b < 20 then
        (if step2.1 = "normal" then "warning" else step2.1,
          step2.2 ++ ["Battery low"])
      else step2
  let step4 : String × List String :=
    match c.signal_strength with
    | none => step3
    | some sg =>
      if sg < -90 then
        (if step3.1 = "normal" then "warning" else step3.1,
          step3.2 ++ ["Signal very weak"])
      else step3
  ⟨step4.1, step4.2⟩

/-- `storeVoiceResponse` (lines 606-619): append, then keep only the last 10
entries (`history.slice(-10)`). -/
def storeVoiceResponse (hist : List (String × List VoiceResponse)) (deviceId : String)
    (response : VoiceResponse) : List (String × List VoiceResponse) :=
  let history := (lookupHistory hist deviceId).getD []
  let history' := history ++ [response]
  let history'' :=
    if history'.length > 10 then history'.drop (history'.length - 10) else history'
  setHistory hist deviceId history''
where
  setHistory : List (String × List VoiceResponse) → String → List VoiceResponse →
      List (String × List VoiceResponse)
    | [], d, h => [(d, h)]
    | (k, h₀) :: rest, d, h =>
      if k = d then (d, h) :: rest else (k, h₀) :: setHistory rest d h

structure VoiceState where
  voiceHistory : List (String × List VoiceResponse)
  generationLocks : String → Bool

inductive GenResult
  | lockedBusy
  | generated (response : VoiceResponse) (analysis : Analysis)
deriving DecidableEq

/-- `generateVoiceResponse(deviceId, conditions, personality, forceResponse)`
(lines 188-276).  The LLM transcript and TTS audio are external collaborators
and enter as the `transcript` parameter; `now` is `Date.now()` /
`new Date().toISOString()`.  The anti-spam block that would consult
`shouldRespond` is commented out in the source, so after the concurrency-lock
check the function always generates, stores and publishes; `forceResponse` is
never read.  The `finally` block releases the lock, so `generationLocks` is
unchanged overall. -/
def generateVoiceResponse (st : VoiceState) (deviceId : String) (conditions : Conditions)
    (personality : String) (forceResponse : Bool) (now : Int) (transcript : String) :
    GenResult × VoiceState :=
  if st.generationLocks deviceId then (.lockedBusy, st)
  else
    let analysis := analyzeConditions conditions
    let voiceResponse : VoiceResponse :=
      { device_id := deviceId, message := transcript, severity := analysis.severity
        personality_type := personality, timestamp := now }
    (.generated voiceResponse analysis,
      { voiceHistory := storeVoiceResponse st.voiceHistory deviceId voiceResponse
        generationLocks := st.generationLocks })

/-- The bookkeeping invariant: a task has a dispatched, unfinished body iff it
is in `runningTasks`, and never more than one. -/
def CoordInv (s : CoordState) : Prop :=
  ∀ j, s.inflight j = if s.running j then 1 else 0

theorem coordInv_init : CoordInv initCoord := fun _ => rfl

theorem coordInv_tick (s : CoordState) (hs : CoordInv s) (j : String) :
    CoordInv (tickFn s j) := by
  intro x
  unfold tickFn
  by_cases hr : s.running j
  · simp [hr, hs x]
  · simp only [Bool.not_eq_true] at hr
    simp only [hr, Bool.false_eq_true, if_false]
    by_cases hx : x = j
    · subst hx; simp [hr, hs x]
    · simp [hx, hs x]

theorem coordInv_finish (s : CoordState) (hs : CoordInv s) (j : String) (o : BodyOutcome) :
    CoordInv (dispatchedFinish s j o) := by
  intro x
  unfold dispatchedFinish
  by_cases hx : x = j
  · subst hx
    simp only [if_pos rfl]
    rw [hs x]
    by_cases h : s.running x <;> simp [h]
  · simp [hx, hs x]

theorem coordInv_reachable (s : CoordState) (hs : CoordReachable s) : CoordInv s := by
  induction hs with
  | refl => exact coordInv_init
  | tail _ hstep ih =>
    cases hstep with
    | tick j => exact coordInv_tick _ ih j
    | finish j o h => exact coordInv_finish _ ih j o


/-! ## Topic matcher lemmas -/

/-- When the pattern suffix contains no `#`, the loop succeeds only by
consuming pattern and topic segments in lock-step (`+` or literal equality)
and then passing the final length check. -/
theorem goMatch_no_hash (actualParts : List String) :
    ∀ (ps : List String) (i : Nat), "#" ∉ ps → goMatch actualParts ps i = true →
      actualParts.length = ps.length + i ∧
      List.Forall₂ (fun p a => p = "+" ∨ p = a) ps (actualParts.drop i)
  | [], i, _, hm => by
    have hlen : actualParts.length = i := by simpa [goMatch] using hm
    exact ⟨by simpa using hlen, by simp [hlen, List.drop_length]⟩
  | p :: ps, i, h, hm => by
    have hp : ¬(p = "#") := fun e => h (by simp [e])
    have hps : "#" ∉ ps := fun hx => h (List.mem_cons_of_mem _ hx)
    rw [goMatch, if_neg hp] at hm
    by_cases hplus : p = "+"
    · rw [if_pos hplus] at hm
      obtain ⟨hlen, hfa⟩ := goMatch_no_hash actualParts ps (i + 1) hps hm
      have hi : i < actualParts.length := by omega
      refine ⟨by simp; omega, ?_⟩
      rw [List.drop_eq_getElem_cons hi]
      exact List.Forall₂.cons (Or.inl hplus) hfa
    · rw [if_neg hplus] at hm
      by_cases hi : i < actualParts.length
      · rw [dif_pos hi] at hm
        by_cases he : p = actualParts.get ⟨i, hi⟩
        · rw [if_pos he] at hm
          obtain ⟨hlen, hfa⟩ := goMatch_no_hash actualParts ps (i + 1) hps hm
          refine ⟨by simp; omega, ?_⟩
          rw [List.drop_eq_getElem_cons hi]
          refine List.Forall₂.cons (Or.inr ?_) hfa
          simpa [List.get_eq_getElem] using he
        · rw [if_neg he] at hm
          exact absurd hm (by simp)
      · rw [dif_neg hi] at hm
        exact absurd hm (by simp)

/-! ## Claims -/

/-- **C7** (confirmed).  For every pattern that contains no `#` segment and
every topic, `topicMatches` is true only if topic and pattern have equal
segment counts and each pattern segment is `+` or equals the corresponding
topic segment; in particular `sensors/+/temp` matches `sensors/42/temp` and
does not match `sensors/42/sub/temp`. -/
theorem topicMatches_no_hash_needs_equal_counts :
    (∀ (actualTopic pattern : String), "#" ∉ splitSlash pattern →
        topicMatches actualTopic pattern = true →
        (splitSlash actualTopic).length = (splitSlash pattern).length ∧
        List.Forall₂ (fun p a => p = "+" ∨ p = a) (splitSlash pattern)
          (splitSlash actualTopic)) ∧
    topicMatches "sensors/42/temp" "sensors/+/temp" = true ∧
    topicMatches "sensors/42/sub/temp" "sensors/+/temp" = false := by
  refine ⟨?_, by decide, by decide⟩
  intro actualTopic pattern hns hm
  unfold topicMatches at hm
  obtain ⟨hlen, hfa⟩ := goMatch_no_hash (splitSlash actualTopic) (splitSlash pattern) 0 hns hm
  exact ⟨by omega, by simpa using hfa⟩

theorem topicMatches_no_hash_needs_equal_counts_witness :
    (splitSlash "sensors/42/temp").length = (splitSlash "sensors/+/temp").length ∧
    List.Forall₂ (fun p a => p = "+" ∨ p = a) (splitSlash "sensors/+/temp")
      (splitSlash "sensors/42/temp") :=
  topicMatches_no_hash_needs_equal_counts.1 "sensors/42/temp" "sensors/+/temp"
    (by decide) (by decide)

/-- **C8** (counterexample).  The claim says a pattern whose `i`-th segment is
`+` matches a topic only if the topic has an `i`-th segment.  The source's
`+` branch is a bare `continue` with no existence check, so `a/+/#` matches
the one-segment topic `a` even though there is no segment for the `+` to
consume. -/
theorem plus_requires_segment_counterexample :
    (splitSlash "a/+/#")[1]? = some "+" ∧
    topicMatches "a" "a/+/#" = true ∧
    ¬1 < (splitSlash "a").length := by decide

/-- **C8** (corrected).  A `+` consumes an existing topic segment only in
patterns without `#`: there the final equal-length check forces every pattern
position (in particular every `+` position) to be within the topic; when a
`#` appears later in the pattern, the loop can skip `+` segments past the end
of the topic and still match, as `topicMatches "a" "a/+/#" = true` shows. -/
theorem plus_requires_segment_amended :
    (∀ (actualTopic pattern : String), "#" ∉ splitSlash pattern →
        topicMatches actualTopic pattern = true →
        ∀ i, i < (splitSlash pattern).length → i < (splitSlash actualTopic).length) ∧
    topicMatches "a" "a/+/#" = true := by
  refine ⟨?_, by decide⟩
  intro actualTopic pattern hns hm i hi
  unfold topicMatches at hm
  obtain ⟨hlen, -⟩ := goMatch_no_hash (splitSlash actualTopic) (splitSlash pattern) 0 hns hm
  omega

theorem plus_requires_segment_amended_witness :
    1 < (splitSlash "sensors/42/temp").length :=
  plus_requires_segment_amended.1 "sensors/42/temp" "sensors/+/temp"
    (by decide) (by decide) 1 (by decide)

/-- Deleting an absent key from the map leaves it unchanged. -/
theorem eraseSub_of_lookup_none :
    ∀ (reg : Registry) (t : String), lookupSub reg t = none → eraseSub reg t = reg
  | [], _, _ => rfl
  | (k, s) :: rest, t, h => by
    by_cases hk : k = t
    · simp [lookupSub, hk] at h
    · simp only [lookupSub, if_neg hk] at h
      simp [eraseSub, hk, eraseSub_of_lookup_none rest t h]

/-- **C1** (counterexample).  The claim says a non-JSON payload fails every
non-empty filter and is not delivered.  In the source, a payload that does
not parse as JSON becomes a plain string, `typeof parsedMessage === 'object'`
is false, the filter block is skipped, and the message reaches the
`Received` log: it IS delivered to the subscription. -/
theorem filter_fail_closed_counterexample :
    handleMessage "sensors/x" (.nonJson "hello")
        [("sensors/x", ⟨"sensors/x", 1, some [("unit", .str "celsius")], false⟩)] =
      [("sensors/x", .delivered (.str "hello"))] := rfl

/-- **C1** (corrected).  The filter is evaluated only when the parsed payload
is object-typed.  For every unpaused subscription — whatever its filter — a
message whose parsed payload is not object-typed (in particular any raw
payload that is not parseable JSON, which parses to a plain string) is
delivered, not suppressed: the router fails open, not closed. -/
theorem filter_skipped_for_non_object_payloads (subscription : Subscription)
    (message : RawPayload) (hp : subscription.paused = false)
    (ho : isObjectType (parsePayload message) = false) :
    processOne subscription message = .delivered (parsePayload message) := by
  unfold processOne
  rw [hp]
  cases hf : subscription.filter with
  | none => simp
  | some f => simp [ho]

theorem filter_skipped_for_non_object_payloads_witness :
    processOne ⟨"sensors/x", 1, some [("unit", .str "celsius")], false⟩ (.nonJson "hello") =
      .delivered (parsePayload (.nonJson "hello")) :=
  filter_skipped_for_non_object_payloads
    ⟨"sensors/x", 1, some [("unit", .str "celsius")], false⟩ (.nonJson "hello") rfl rfl

/-- **C2** (counterexample).  `a/#/b` has a `#` in non-final position
(segment 1 of 3), yet the subscribe case performs no validation: with the
transport acknowledging, the call resolves successfully and the pattern is
stored in the subscription registry. -/
theorem invalid_hash_pattern_counterexample :
    (splitSlash "a/#/b")[1]? = some "#" ∧ (splitSlash "a/#/b").length = 3 ∧
    subscribeCase (fun _ => true) ["a/#/b"] 1 none [] =
      (some { success := true, status := .subscribedCount 1 },
        [("a/#/b", ⟨"a/#/b", 1, none, false⟩)]) := by decide

/-- **C2** (corrected).  The subscribe case validates nothing: every pattern
the transport acknowledges — whatever its `#` placement — is stored in the
registry and reported as a success. -/
theorem subscribe_stores_unvalidated_patterns (brokerOk : String → Bool) (t : String)
    (qos : Nat) (filter : Option (List (String × Scalar))) (reg : Registry)
    (h : brokerOk t = true) :
    subscribeCase brokerOk [t] qos filter reg =
      (some { success := true, status := .subscribedCount 1 },
        setSub reg t ⟨t, qos, filter, false⟩) := by
  simp [subscribeCase, runSubscribeCallbacks, h]

theorem subscribe_stores_unvalidated_patterns_witness :
    subscribeCase (fun _ => true) ["a/#/b"] 1 none [] =
      (some { success := true, status := .subscribedCount 1 },
        setSub [] "a/#/b" ⟨"a/#/b", 1, none, false⟩) :=
  subscribe_stores_unvalidated_patterns (fun _ => true) "a/#/b" 1 none [] rfl

/-- **C9** (counterexample).  Unsubscribing a pattern that has no registry
entry does not return a `NotFound` error: when the transport acknowledges,
the call reports success. -/
theorem unknown_pattern_operations_counterexample :
    unsubscribeCase false "ghost" [] =
      ({ success := true, status := .unsubscribed "ghost" }, []) := by decide

/-- **C9** (corrected).  On a pattern with no subscription entry, `pause` and
`resume` return the `NotFound` error and leave the registry unchanged, but
`unsubscribe` never consults the registry: deleting the absent key is a
no-op, the registry is unchanged, and with the transport acknowledging the
call reports success instead of `NotFound`. -/
theorem unknown_pattern_operations (t : String) (reg : Registry)
    (h : lookupSub reg t = none) :
    pauseCase t reg = ({ success := false, status := .notFound }, reg) ∧
    resumeCase t reg = ({ success := false, status := .notFound }, reg) ∧
    (∀ brokerErr, (unsubscribeCase brokerErr t reg).2 = reg) ∧
    (unsubscribeCase false t reg).1 = { success := true, status := .unsubscribed t } := by
  refine ⟨by simp [pauseCase, h], by simp [resumeCase, h], ?_, rfl⟩
  intro brokerErr
  cases brokerErr with
  | true => rfl
  | false => simp [unsubscribeCase, eraseSub_of_lookup_none reg t h]

theorem unknown_pattern_operations_witness :
    pauseCase "ghost" [] = ({ success := false, status := .notFound }, []) ∧
    resumeCase "ghost" [] = ({ success := false, status := .notFound }, []) ∧
    (∀ brokerErr, (unsubscribeCase brokerErr "ghost" []).2 = []) ∧
    (unsubscribeCase false "ghost" []).1 =
      { success := true, status := .unsubscribed "ghost" } :=
  unknown_pattern_operations "ghost" [] rfl

/-- **C10** (confirmed).  A subscribe call with an empty topics list creates
the promise with `remaining = 0`; `resolve` is invoked only inside the
per-topic callbacks, none of which exist, so no result is ever produced (the
registry is also untouched). -/
theorem subscribe_empty_topics_never_resolves (brokerOk : String → Bool) (qos : Nat)
    (filter : Option (List (String × Scalar))) (reg : Registry) :
    subscribeCase brokerOk [] qos filter reg = (none, reg) := rfl

/-- **C3** (confirmed).  In every reachable coordinator state at most one
dispatched body per job name is unfinished; and from a state where `J` is not
running, two ticks for `J` (with no completion in between) dispatch the body
exactly once, the second tick only logging "already running, skipping".  Here
"in flight" is the coordinator's own bookkeeping — from the dispatch of the
`setTimeout` body to its `finally` — matching the `runningTasks` guard the
source maintains. -/
theorem overlap_guard_at_most_one_execution :
    (∀ s, CoordReachable s → ∀ j, s.inflight j ≤ 1) ∧
    (∀ (s : CoordState) (j : String), s.running j = true →
      tickFn s j = { s with log := s.log ++ [.starting j, .skipping j] }) ∧
    (∀ (s : CoordState) (j : String), s.running j = false →
      (tickFn (tickFn s j) j).startedCount j = s.startedCount j + 1 ∧
      (tickFn (tickFn s j) j).log = s.log ++ [.starting j, .starting j, .skipping j]) := by
  refine ⟨fun s hs j => ?_, fun s j h => ?_, fun s j h => ?_⟩
  · rw [coordInv_reachable s hs j]
    by_cases hr : s.running j <;> simp [hr]
  · simp [tickFn, h]
  · have h1 : (tickFn s j).running j = true := by simp [tickFn, h]
    constructor
    · simp [tickFn, h, h1]
    · simp [tickFn, h, h1]

theorem overlap_guard_at_most_one_execution_witness :
    initCoord.inflight "J" ≤ 1 ∧
    (tickFn { running := fun _ => true, inflight := fun _ => 1,
              startedCount := fun _ => 1, log := [] } "J" =
      { running := fun _ => true, inflight := fun _ => 1, startedCount := fun _ => 1,
        log := [LogEvent.starting "J", LogEvent.skipping "J"] }) ∧
    ((tickFn (tickFn initCoord "J") "J").startedCount "J" = initCoord.startedCount "J" + 1 ∧
      (tickFn (tickFn initCoord "J") "J").log =
        initCoord.log ++ [.starting "J", .starting "J", .skipping "J"]) :=
  ⟨overlap_guard_at_most_one_execution.1 initCoord Relation.ReflTransGen.refl "J",
    overlap_guard_at_most_one_execution.2.1
      { running := fun _ => true, inflight := fun _ => 1,
        startedCount := fun _ => 1, log := [] } "J" rfl,
    overlap_guard_at_most_one_execution.2.2 initCoord "J" rfl⟩

/-- **C6** (confirmed).  Whatever the exit path of a dispatched execution —
success, missing workflow, the 2-minute timeout, or a thrown error — the
`finally` block removes the job from `runningTasks`, so the overlap guard is
released and the next tick for the job dispatches its body again. -/
theorem running_flag_cleared_on_every_exit (s : CoordState) (j : String) (o : BodyOutcome) :
    (dispatchedFinish s j o).running j = false ∧
    (tickFn (dispatchedFinish s j o) j).startedCount j = s.startedCount j + 1 := by
  constructor
  · simp [dispatchedFinish]
  · simp [tickFn, dispatchedFinish]

/-- **C4** (counterexample).  The claim says a generated notification for a
key within the cooldown window (non-critical severity, not forced) is
suppressed.  With device `d1` having emitted one minute earlier, severity
`normal`, `force_response` false and no generation lock held, the source
still generates (the `shouldRespond` anti-spam check is commented out) even
though `shouldRespond` itself answers false. -/
theorem voice_throttle_counterexample :
    (generateVoiceResponse
        ⟨[("d1", [⟨"d1", "m", "normal", "rick_morty", 0⟩])], fun _ => false⟩
        "d1" {} "rick_morty" false 60000 "msg").1 =
      .generated ⟨"d1", "msg", "normal", "rick_morty", 60000⟩ ⟨"normal", []⟩ ∧
    shouldRespond [("d1", [⟨"d1", "m", "normal", "rick_morty", 0⟩])] 60000
      "d1" "normal" = false := by decide

/-- **C4** (corrected).  Generated outbound notifications are not throttled
by the rate limiter: `generateVoiceResponse` never calls `shouldRespond`
(the anti-spam block is commented out), so whenever the per-device
generation lock is free it generates, stores and publishes a response
regardless of `force_response` and of the elapsed time since the key's last
emission; the only suppression is a concurrently held generation lock. -/
theorem voice_generation_not_throttled (st : VoiceState) (deviceId : String)
    (conditions : Conditions) (personality : String) (forceResponse : Bool) (now : Int)
    (transcript : String) (h : st.generationLocks deviceId = false) :
    (generateVoiceResponse st deviceId conditions personality forceResponse now transcript).1 =
      .generated
        { device_id := deviceId, message := transcript
          severity := (analyzeConditions conditions).severity
          personality_type := personality, timestamp := now }
        (analyzeConditions conditions) := by
  simp [generateVoiceResponse, h]

theorem voice_generation_not_throttled_witness :
    (generateVoiceResponse
        ⟨[("d1", [⟨"d1", "m", "normal", "rick_morty", 0⟩])], fun _ => false⟩
        "d1" {} "rick_morty" false 60000 "msg").1 =
      .generated
        { device_id := "d1", message := "msg"
          severity := (analyzeConditions {}).severity
          personality_type := "rick_morty", timestamp := 60000 }
        (analyzeConditions {}) :=
  voice_generation_not_throttled
    ⟨[("d1", [⟨"d1", "m", "normal", "rick_morty", 0⟩])], fun _ => false⟩
    "d1" {} "rick_morty" false 60000 "msg" rfl

/-- **C5** (confirmed).  `shouldRespond` returns true for `critical` and
`emergency` regardless of elapsed time, returns true when the key has no
recorded emission, and otherwise returns false exactly when less than
15 minutes (`warning`) or less than 30 minutes (`normal`) have elapsed since
the key's last recorded emission (the last entry of its history). -/
theorem rate_limiter_decision (hist : List (String × List VoiceResponse)) (now : Int)
    (deviceId severity : String) :
    ((severity = "critical" ∨ severity = "emergency") →
      shouldRespond hist now deviceId severity = true) ∧
    ((lookupHistory hist deviceId = none ∨ lookupHistory hist deviceId = some []) →
      shouldRespond hist now deviceId severity = true) ∧
    (shouldRespond hist now deviceId severity = false ↔
      ∃ history lastResponse, lookupHistory hist deviceId = some history ∧
        history.getLast? = some lastResponse ∧
        ((severity = "warning" ∧ now - lastResponse.timestamp < 15 * 60000) ∨
         (severity = "normal" ∧ now - lastResponse.timestamp < 30 * 60000))) := by
  cases h1 : lookupHistory hist deviceId with
  | none => simp [shouldRespond, h1]
  | some history =>
    cases history with
    | nil => simp [shouldRespond, h1]
    | cons a t =>
      have hne : a :: t ≠ [] := by simp
      have hl : (a :: t).getLast? = some ((a :: t).getLast hne) :=
        List.getLast?_eq_getLast _ hne
      refine ⟨?_, ?_, ?_⟩
      · rintro (h | h) <;> simp [shouldRespond, h1, hl, h]
      · rintro (h | h) <;> simp_all
      · simp only [shouldRespond, h1, hl]
        constructor
        · intro hfalse
          refine ⟨a :: t, (a :: t).getLast hne, rfl, hl, ?_⟩
          by_cases he : severity = "emergency"
          · simp [he] at hfalse
          · by_cases hc : severity = "critical"
            · simp [hc] at hfalse
            · by_cases hw : severity = "warning"
              · by_cases ht : now - ((a :: t).getLast hne).timestamp < 15 * 60000
                · exact Or.inl ⟨hw, ht⟩
                · exfalso
                  simp [he, hc, hw] at hfalse
                  omega
              · by_cases hn : severity = "normal"
                · by_cases ht : now - ((a :: t).getLast hne).timestamp < 30 * 60000
                  · exact Or.inr ⟨hn, ht⟩
                  · exfalso
                    simp [he, hc, hw, hn] at hfalse
                    omega
                · simp [he, hc, hw, hn] at hfalse
        · rintro ⟨history, lastResponse, hh, hlast, hcase⟩
          injection hh with hh
          subst hh
          rw [hl] at hlast
          injection hlast with hlast
          subst hlast
          rcases hcase with ⟨hw, ht⟩ | ⟨hn, ht⟩
          · have ht' : now - ((a :: t).getLast hne).timestamp < 900000 := by omega
            simp [hw, ht']
          · have ht' : now - ((a :: t).getLast hne).timestamp < 1800000 := by omega
            simp [hn, ht']

theorem rate_limiter_decision_witness :
    shouldRespond [("d1", [⟨"d1", "m", "normal", "rick_morty", 0⟩])] (29 * 60000)
      "d1" "normal" = false ∧
    shouldRespond [("d1", [⟨"d1", "m", "normal", "rick_morty", 0⟩])] 0
      "d1" "critical" = true :=
  ⟨(rate_limiter_decision [("d1", [⟨"d1", "m", "normal", "rick_morty", 0⟩])]
        (29 * 60000) "d1" "normal").2.2.mpr
      ⟨[⟨"d1", "m", "normal", "rick_morty", 0⟩], ⟨"d1", "m", "normal", "rick_morty", 0⟩,
        rfl, rfl, Or.inr ⟨rfl, by decide⟩⟩,
    (rate_limiter_decision [("d1", [⟨"d1", "m", "normal", "rick_morty", 0⟩])]
        0 "d1" "critical").1 (Or.inl rfl)⟩
